import Mathlib

/-!
# Verification of the BIST alarm bot monitoring core

Shallow embedding of `src/backend/server.py`: the alert data model, the
trigger evaluator embedded in the monitoring loop, and the background task
`check_alerts_background` that snapshots active alerts, fetches quotes,
evaluates trigger conditions, notifies, and commits state transitions.

Modelling conventions:
* prices, thresholds and percentages are rationals (idealised arithmetic
  for the Python floats; every claim is about comparisons and the
  division formula, not about rounding);
* timestamps are naturals; one clock value per cycle;
* a raised exception from a collaborator (quote provider, Telegram send,
  store update) is modelled by the environment reporting a failure for
  that call, and the surrounding `try/except` of the source becomes the
  corresponding branch of the cycle function;
* the fetched price history is the list of closes, oldest first, exactly
  the data `ticker.history(period="2d")['Close']` supplies.
-/

namespace BistAlarm

/-- Request body of POST /api/alerts (`class AlertCreate`, server.py
lines 42-46).  `alert_type` is a plain string: the model performs no
validation of the alert kind. -/
structure AlertCreate where
  symbol : String
  alert_type : String
  value : ℚ
  chat_id : String

deriving instance DecidableEq for AlertCreate

/-- Persisted alert record (`class Alert`, server.py lines 48-58). -/
structure Alert where
  id : String
  symbol : String
  alert_type : String
  value : ℚ
  chat_id : String
  is_active : Bool
  created_at : ℕ
  triggered_at : Option ℕ

deriving instance DecidableEq for Alert

/-- POST /api/alerts handler (`create_alert`, lines 114-124): builds an
`Alert` from the request body — any `alert_type` string is accepted — with
a fresh id and the model defaults `is_active = true`, `triggered_at = none`,
and inserts it into the store. -/
def create_alert (input : AlertCreate) (freshId : String) (now : ℕ)
    (store : List Alert) : Alert × List Alert :=
  let a : Alert :=
    { id := freshId, symbol := input.symbol, alert_type := input.alert_type,
      value := input.value, chat_id := input.chat_id, is_active := true,
      created_at := now, triggered_at := none }
  (a, store ++ [a])

/-- Last close of the fetched history: `hist['Close'].iloc[-1]`
(line 183). -/
def currentPriceOf (hist : List ℚ) : ℚ := hist.getLastD 0

/-- The previous close, present exactly when the history has more than one
row: `hist['Close'].iloc[-2]` under the guard `len(hist) > 1`
(lines 186-187). -/
def previousCloseOf (hist : List ℚ) : Option ℚ :=
  if 1 < hist.length then some (hist.dropLast.getLastD 0) else none

/-- `change_percent` as computed in `check_alerts_background`
(lines 184-188): `0.0` unless the history has a previous row, else
`((current_price - prev_close) / prev_close) * 100`. -/
def changePercentOf (hist : List ℚ) : ℚ :=
  match previousCloseOf hist with
  | none => 0
  | some prev_close => (currentPriceOf hist - prev_close) / prev_close * 100

/-- `PriceSample` of the spec data model: ephemeral quote with an optional
previous close. -/
structure PriceSample where
  symbol : String
  currentPrice : ℚ
  previousClose : Option ℚ

deriving instance DecidableEq for PriceSample

/-- Derived change percent of a `PriceSample`: `0` when `previousClose` is
absent, otherwise `(current - previous) / previous * 100`. -/
def PriceSample.changePercent (s : PriceSample) : ℚ :=
  match s.previousClose with
  | none => 0
  | some prev => (s.currentPrice - prev) / prev * 100

/-- The price sample the monitoring loop effectively extracts from a fetched
history. -/
def sampleOfHist (symbol : String) (hist : List ℚ) : PriceSample :=
  { symbol := symbol, currentPrice := currentPriceOf hist,
    previousClose := previousCloseOf hist }

/-- Trigger decision of the monitoring loop: the `if/elif` chain on
`alert_type` (lines 190-207).  An `alert_type` outside the four known
strings falls through every branch and never triggers.  The rendered
message text is presentation only and is not modelled. -/
def triggerDecision (a : Alert) (current_price change_percent : ℚ) : Bool :=
  if a.alert_type = "price_above" ∧ current_price ≥ a.value then true
  else if a.alert_type = "price_below" ∧ current_price ≤ a.value then true
  else if a.alert_type = "percent_up" ∧ change_percent ≥ a.value then true
  else if a.alert_type = "percent_down" ∧ change_percent ≤ -a.value then true
  else false

/-- The evaluator of spec section 4.1: the source trigger decision applied
to the fields of a `PriceSample`. -/
def evaluate (a : Alert) (s : PriceSample) : Bool :=
  triggerDecision a s.currentPrice s.changePercent

/-- Observable steps of one monitoring cycle, used to state ordering,
isolation and frame properties of `check_alerts_background`. -/
inductive Event where
  | snapshotRead : Event
  | fetchAttempt : String → Event
  | evaluated : String → Bool → Event
  | notifyAttempt : String → Event
  | notifySuccess : String → Event
  | notifyFailed : String → Event
  | commit : String → Event
  | logError : String → Event
  | cycleError : Event
  | sleep : ℕ → Event

deriving instance DecidableEq for Event

/-- One cycle's environment: whether the Telegram bot is configured,
whether the snapshot read succeeds, the outcome of each quote fetch
(`none` models a raised provider error, `some hist` the returned close
history), whether each `send_message` and each `update_one` call succeeds,
and the cycle's clock reading. -/
structure Env where
  botConfigured : Bool
  snapshotOk : Bool
  fetch : String → Option (List ℚ)
  notifyOk : String → Bool
  commitOk : String → Bool
  now : ℕ

/-- `db.alerts.update_one` on `id` with a single `$set` of
`is_active = false` and `triggered_at` (lines 215-223): the first record
with the id gets both fields set together; no matching record is a
no-op. -/
def markTriggered : List Alert → String → ℕ → List Alert
  | [], _, _ => []
  | r :: rest, i, now =>
    if r.id = i then
      { r with is_active := false, triggered_at := some now } :: rest
    else r :: markTriggered rest i now

/-- Snapshot read `db.alerts.find` with `is_active = true` (line 172). -/
def listActive (store : List Alert) : List Alert :=
  store.filter (fun a => a.is_active)

/-- Handling of one alert inside the `for` loop (lines 174-229), including
the inner `try/except` that absorbs any raised error into a log line and
continues.  Returns the store after this alert and the trace of observable
steps, in execution order. -/
def processAlert (env : Env) (store : List Alert) (a : Alert) :
    List Alert × List Event :=
  match env.fetch a.symbol with
  | none => (store, [Event.fetchAttempt a.symbol, Event.logError a.id])
  | some hist =>
    if hist.isEmpty ∨ hist.length < 1 then
      (store, [Event.fetchAttempt a.symbol])
    else
      let current_price := currentPriceOf hist
      let change_percent := changePercentOf hist
      if triggerDecision a current_price change_percent then
        if env.notifyOk a.chat_id then
          if env.commitOk a.id then
            (markTriggered store a.id env.now,
             [Event.fetchAttempt a.symbol, Event.evaluated a.id true,
              Event.notifyAttempt a.id, Event.notifySuccess a.id,
              Event.commit a.id])
          else
            (store,
             [Event.fetchAttempt a.symbol, Event.evaluated a.id true,
              Event.notifyAttempt a.id, Event.notifySuccess a.id,
              Event.logError a.id])
        else
          (store,
           [Event.fetchAttempt a.symbol, Event.evaluated a.id true,
            Event.notifyAttempt a.id, Event.notifyFailed a.id,
            Event.logError a.id])
      else
        (store, [Event.fetchAttempt a.symbol, Event.evaluated a.id false])

/-- Sequential processing of a snapshot of alerts (the `for` loop,
lines 174-229). -/
def processAll (env : Env) : List Alert → List Alert → List Alert × List Event
  | store, [] => (store, [])
  | store, a :: rest =>
    let r := processAlert env store a
    let r2 := processAll env r.1 rest
    (r2.1, r.2 ++ r2.2)

/-- One iteration of the `while True` loop of `check_alerts_background`
(lines 166-235): idle sleep when the bot is unconfigured (lines 168-170),
the outer `try/except` absorbing a failed snapshot read into a logged
cycle error (lines 233-235), and otherwise snapshot, per-alert processing
and the fixed 30-unit sleep (lines 172-231). -/
def runCycle (env : Env) (store : List Alert) : List Alert × List Event :=
  if env.botConfigured = false then (store, [Event.sleep 30])
  else if env.snapshotOk = false then
    (store, [Event.cycleError, Event.sleep 30])
  else
    let r := processAll env store (listActive store)
    (r.1, Event.snapshotRead :: r.2 ++ [Event.sleep 30])

/-- `n` iterations of the monitoring loop, with a fresh environment each
cycle.  The loop itself has no termination condition; this function lets us
speak about the store after any number of cycles. -/
def runLoop (envs : ℕ → Env) (store : List Alert) : ℕ → List Alert
  | 0 => store
  | n + 1 => (runCycle (envs n) (runLoop envs store n)).1

/-- The ids whose notification succeeded so far in a trace, accumulated in
scan order: used to state the notify-before-commit ordering invariant. -/
def notifiedIds : List Event → List String → List String
  | [], acc => acc
  | Event.notifySuccess i :: rest, acc => notifiedIds rest (i :: acc)
  | _ :: rest, acc => notifiedIds rest acc

/-- Scans a trace and checks that every commit step is preceded by a
successful notify step for the same alert id. -/
def commitsAfterNotify : List Event → List String → Bool
  | [], _ => true
  | Event.notifySuccess i :: rest, acc => commitsAfterNotify rest (i :: acc)
  | Event.commit i :: rest, acc =>
      decide (i ∈ acc) && commitsAfterNotify rest acc
  | _ :: rest, acc => commitsAfterNotify rest acc

/-! ## Concrete fixtures used in counterexamples and witnesses -/

/-- A concrete active price_above alert. -/
def a0 : Alert :=
  { id := "a0", symbol := "XU100.IS", alert_type := "price_above",
    value := 100, chat_id := "c0", is_active := true, created_at := 0,
    triggered_at := none }

/-- A second concrete active alert, on its own symbol. -/
def aA : Alert :=
  { id := "aA", symbol := "GARAN.IS", alert_type := "price_above",
    value := 100, chat_id := "cA", is_active := true, created_at := 0,
    triggered_at := none }

/-- A concrete active alert whose alert_type is none of the four known
kinds. -/
def aBogus : Alert :=
  { id := "b0", symbol := "XU100.IS", alert_type := "bogus",
    value := 1, chat_id := "c0", is_active := true, created_at := 0,
    triggered_at := none }

/-- Environment whose quote provider returns an empty history for every
symbol (e.g. an unknown ticker, for which the provider returns an empty
frame). -/
def emptyHistEnv : Env :=
  { botConfigured := true, snapshotOk := true, fetch := fun _ => some [],
    notifyOk := fun _ => true, commitOk := fun _ => true, now := 7 }

/-- Environment whose quote provider raises for every symbol. -/
def raiseEnv : Env :=
  { botConfigured := true, snapshotOk := true, fetch := fun _ => none,
    notifyOk := fun _ => true, commitOk := fun _ => true, now := 7 }

/-- Environment with the Telegram bot unconfigured. -/
def idleEnv : Env :=
  { botConfigured := false, snapshotOk := true,
    fetch := fun _ => some [95, 101], notifyOk := fun _ => true,
    commitOk := fun _ => true, now := 7 }

/-- Fully healthy environment: quotes 95 then 101, delivery and commits
succeed. -/
def triggerEnv : Env :=
  { botConfigured := true, snapshotOk := true,
    fetch := fun _ => some [95, 101], notifyOk := fun _ => true,
    commitOk := fun _ => true, now := 7 }

/-- Healthy quotes but every notification delivery fails. -/
def notifyFailEnv : Env :=
  { botConfigured := true, snapshotOk := true,
    fetch := fun _ => some [95, 101], notifyOk := fun _ => false,
    commitOk := fun _ => true, now := 7 }

/-- Provider that raises only for GARAN.IS and serves other symbols. -/
def mixedEnv : Env :=
  { botConfigured := true, snapshotOk := true,
    fetch := fun s => if s = "GARAN.IS" then none else some [95, 101],
    notifyOk := fun _ => true, commitOk := fun _ => true, now := 7 }

/-! ## Helper lemmas about the store and the per-alert step -/

lemma markTriggered_mem {store : List Alert} {i : String} {now : ℕ} {b : Alert}
    (hb : b ∈ markTriggered store i now) :
    b ∈ store ∨ (b.id = i ∧ b.is_active = false ∧ b.triggered_at = some now) := by
  induction store with
  | nil => simp [markTriggered] at hb
  | cons r rest ih =>
    by_cases hr : r.id = i
    · simp only [markTriggered, if_pos hr, List.mem_cons] at hb
      rcases hb with hb | hb
      · right; subst hb; exact ⟨hr, rfl, rfl⟩
      · left; exact List.mem_cons_of_mem _ hb
    · simp only [markTriggered, if_neg hr, List.mem_cons] at hb
      rcases hb with hb | hb
      · left; simp [hb]
      · rcases ih hb with h | h
        · left; exact List.mem_cons_of_mem _ h
        · right; exact h

lemma markTriggered_mem_of_ne {store : List Alert} {i : String} {now : ℕ}
    {a : Alert} (ha : a ∈ store) (hne : a.id ≠ i) :
    a ∈ markTriggered store i now := by
  induction store with
  | nil => simp at ha
  | cons r rest ih =>
    rcases List.mem_cons.mp ha with ha | ha
    · subst ha
      simp only [markTriggered, if_neg hne]
      exact List.mem_cons_self _ _
    · by_cases hr : r.id = i
      · simp only [markTriggered, if_pos hr]
        exact List.mem_cons_of_mem _ ha
      · simp only [markTriggered, if_neg hr]
        exact List.mem_cons_of_mem _ (ih ha)

lemma processAlert_fetch_none {env : Env} {store : List Alert} {a : Alert}
    (h : env.fetch a.symbol = none) :
    processAlert env store a =
      (store, [Event.fetchAttempt a.symbol, Event.logError a.id]) := by
  simp [processAlert, h]

lemma processAlert_fetch_empty {env : Env} {store : List Alert} {a : Alert}
    (h : env.fetch a.symbol = some []) :
    processAlert env store a = (store, [Event.fetchAttempt a.symbol]) := by
  simp [processAlert, h]

lemma processAlert_store_cases (env : Env) (store : List Alert) (a : Alert) :
    (processAlert env store a).1 = store ∨
    (processAlert env store a).1 = markTriggered store a.id env.now := by
  unfold processAlert
  cases h : env.fetch a.symbol with
  | none => left; rfl
  | some hist =>
    dsimp only
    split
    · left; rfl
    · split
      · split
        · split
          · right; rfl
          · left; rfl
        · left; rfl
      · left; rfl

lemma processAlert_no_trigger {a : Alert}
    (h : ∀ cur chg, triggerDecision a cur chg = false)
    (env : Env) (store : List Alert) :
    (processAlert env store a).1 = store := by
  unfold processAlert
  cases hf : env.fetch a.symbol with
  | none => rfl
  | some hist =>
    dsimp only
    split
    · rfl
    · simp [h]

lemma processAlert_notify_fail {env : Env} {a : Alert}
    (h : env.notifyOk a.chat_id = false) (store : List Alert) :
    (processAlert env store a).1 = store := by
  unfold processAlert
  cases hf : env.fetch a.symbol with
  | none => rfl
  | some hist =>
    dsimp only
    split
    · rfl
    · split
      · simp [h]
      · rfl

lemma getLast?_append_singleton {α : Type} (l : List α) (e : α) :
    (l ++ [e]).getLast? = some e := by simp

lemma processAlert_mem {env : Env} {store : List Alert} {a b : Alert}
    (hb : b ∈ (processAlert env store a).1) :
    b ∈ store ∨ (b.is_active = false ∧ b.triggered_at = some env.now) := by
  rcases processAlert_store_cases env store a with h | h
  · rw [h] at hb; exact Or.inl hb
  · rw [h] at hb
    rcases markTriggered_mem hb with h2 | h2
    · exact Or.inl h2
    · exact Or.inr ⟨h2.2.1, h2.2.2⟩

lemma processAll_mem {env : Env} (snap : List Alert) :
    ∀ store b, b ∈ (processAll env store snap).1 →
      b ∈ store ∨ (b.is_active = false ∧ b.triggered_at = some env.now) := by
  induction snap with
  | nil => intro store b hb; exact Or.inl hb
  | cons a rest ih =>
    intro store b hb
    simp only [processAll] at hb
    rcases ih _ _ hb with h | h
    · exact processAlert_mem h
    · exact Or.inr h

lemma runCycle_mem {env : Env} {store : List Alert} {b : Alert}
    (hb : b ∈ (runCycle env store).1) :
    b ∈ store ∨ (b.is_active = false ∧ b.triggered_at = some env.now) := by
  unfold runCycle at hb
  split at hb
  · exact Or.inl hb
  · split at hb
    · exact Or.inl hb
    · exact processAll_mem _ _ _ hb

lemma fetchAttempt_mem_processAlert (env : Env) (store : List Alert)
    (a : Alert) :
    Event.fetchAttempt a.symbol ∈ (processAlert env store a).2 := by
  unfold processAlert
  cases env.fetch a.symbol with
  | none => simp
  | some hist =>
    dsimp only
    split
    · simp
    · split
      · split
        · split <;> simp
        · simp
      · simp

lemma fetchAttempt_mem_processAll {env : Env} (snap : List Alert) :
    ∀ store, ∀ a ∈ snap,
      Event.fetchAttempt a.symbol ∈ (processAll env store snap).2 := by
  induction snap with
  | nil => intro store a ha; simp at ha
  | cons c rest ih =>
    intro store a ha
    simp only [processAll, List.mem_append]
    rcases List.mem_cons.mp ha with h | h
    · subst h; exact Or.inl (fetchAttempt_mem_processAlert env store a)
    · exact Or.inr (ih _ a h)

lemma processAll_preserves_unique {env : Env} {a : Alert}
    (hnc : ∀ s, (processAlert env s a).1 = s) :
    ∀ (snap store : List Alert), a ∈ store →
      (∀ c ∈ store, c.id = a.id → c = a) →
      (∀ c ∈ snap, c.id = a.id → c = a) →
      a ∈ (processAll env store snap).1 ∧
      (∀ c ∈ (processAll env store snap).1, c.id = a.id → c = a) := by
  intro snap
  induction snap with
  | nil => intro store hmem huniq _; exact ⟨hmem, huniq⟩
  | cons c rest ih =>
    intro store hmem huniq hsnap
    simp only [processAll]
    by_cases hc : c.id = a.id
    · have hca : c = a := hsnap c (List.mem_cons_self c rest) hc
      subst hca
      rw [hnc store]
      exact ih store hmem huniq
        (fun d hd => hsnap d (List.mem_cons_of_mem _ hd))
    · have step : a ∈ (processAlert env store c).1 ∧
          (∀ d ∈ (processAlert env store c).1, d.id = a.id → d = a) := by
        rcases processAlert_store_cases env store c with h | h
        · rw [h]; exact ⟨hmem, huniq⟩
        · rw [h]
          refine ⟨markTriggered_mem_of_ne hmem (fun he => hc he.symm), ?_⟩
          intro d hd hdi
          rcases markTriggered_mem hd with h2 | h2
          · exact huniq d h2 hdi
          · exact absurd (h2.1.symm.trans hdi) hc
      exact ih _ step.1 step.2
        (fun d hd => hsnap d (List.mem_cons_of_mem _ hd))

lemma triggerDecision_unknown {a : Alert}
    (h : a.alert_type ∉ ["price_above", "price_below", "percent_up",
      "percent_down"]) (cur chg : ℚ) :
    triggerDecision a cur chg = false := by
  simp only [List.mem_cons, List.mem_singleton, not_or] at h
  obtain ⟨h1, h2, h3, h4⟩ := h
  simp [triggerDecision, h1, h2, h3, h4]

lemma unknown_type_stays {a : Alert}
    (hnc : ∀ env s, (processAlert env s a).1 = s)
    (envs : ℕ → Env) (store : List Alert) (hmem : a ∈ store)
    (huniq : ∀ c ∈ store, c.id = a.id → c = a) :
    ∀ n, a ∈ runLoop envs store n ∧
      (∀ c ∈ runLoop envs store n, c.id = a.id → c = a) := by
  intro n
  induction n with
  | zero => exact ⟨hmem, huniq⟩
  | succ k ih =>
    have step : a ∈ (runCycle (envs k) (runLoop envs store k)).1 ∧
        (∀ c ∈ (runCycle (envs k) (runLoop envs store k)).1,
          c.id = a.id → c = a) := by
      unfold runCycle
      split
      · exact ih
      · split
        · exact ih
        · dsimp only
          exact processAll_preserves_unique (hnc (envs k))
            (listActive (runLoop envs store k)) (runLoop envs store k)
            ih.1 ih.2 (fun c hcm => ih.2 c (List.mem_filter.mp hcm).1)
    exact step

lemma commitsAfterNotify_append (l₁ : List Event) :
    ∀ (l₂ : List Event) (acc : List String),
      commitsAfterNotify (l₁ ++ l₂) acc =
        (commitsAfterNotify l₁ acc &&
         commitsAfterNotify l₂ (notifiedIds l₁ acc)) := by
  induction l₁ with
  | nil => intro l₂ acc; simp [commitsAfterNotify, notifiedIds]
  | cons e rest ih =>
    intro l₂ acc
    cases e <;>
      simp [commitsAfterNotify, notifiedIds, ih, Bool.and_assoc]

lemma commitsAfterNotify_processAlert (env : Env) (store : List Alert)
    (a : Alert) (acc : List String) :
    commitsAfterNotify (processAlert env store a).2 acc = true := by
  unfold processAlert
  cases env.fetch a.symbol with
  | none => simp [commitsAfterNotify]
  | some hist =>
    dsimp only
    split
    · simp [commitsAfterNotify]
    · split
      · split
        · split <;> simp [commitsAfterNotify]
        · simp [commitsAfterNotify]
      · simp [commitsAfterNotify]

lemma commitsAfterNotify_processAll {env : Env} (snap : List Alert) :
    ∀ (store : List Alert) (acc : List String),
      commitsAfterNotify (processAll env store snap).2 acc = true := by
  induction snap with
  | nil => intro store acc; rfl
  | cons c rest ih =>
    intro store acc
    simp only [processAll]
    rw [commitsAfterNotify_append]
    rw [commitsAfterNotify_processAlert, ih]
    rfl

lemma commitsAfterNotify_runCycle (env : Env) (store : List Alert) :
    commitsAfterNotify (runCycle env store).2 [] = true := by
  unfold runCycle
  split
  · rfl
  · split
    · rfl
    · dsimp only
      show commitsAfterNotify
        ((processAll env store (listActive store)).2 ++ [Event.sleep 30]) [] =
          true
      rw [commitsAfterNotify_append, commitsAfterNotify_processAll]
      rfl

lemma checker_split (i : String) :
    ∀ (l₁ l₂ : List Event) (acc : List String),
      commitsAfterNotify (l₁ ++ Event.commit i :: l₂) acc = true →
      i ∈ acc ∨ Event.notifySuccess i ∈ l₁ := by
  intro l₁
  induction l₁ with
  | nil =>
    intro l₂ acc h
    simp only [List.nil_append, commitsAfterNotify, Bool.and_eq_true,
      decide_eq_true_eq] at h
    exact Or.inl h.1
  | cons e rest ih =>
    intro l₂ acc h
    cases e <;> simp only [List.cons_append, commitsAfterNotify] at h
    case notifySuccess j =>
      rcases ih l₂ (j :: acc) h with hin | hin
      · rcases List.mem_cons.mp hin with hj | hj
        · subst hj; exact Or.inr (List.mem_cons_self _ _)
        · exact Or.inl hj
      · exact Or.inr (List.mem_cons_of_mem _ hin)
    case commit j =>
      simp only [Bool.and_eq_true] at h
      rcases ih l₂ acc h.2 with hin | hin
      · exact Or.inl hin
      · exact Or.inr (List.mem_cons_of_mem _ hin)
    all_goals
      rcases ih l₂ acc h with hin | hin
      · exact Or.inl hin
      · exact Or.inr (List.mem_cons_of_mem _ hin)

/-! ## Claim theorems -/

/-- C3: every state transition the engine commits sets `is_active = false`
and `triggered_at = now` together; every still-active record of the output
store was already in the input store unchanged (the engine never
re-activates an alert); an inactive record is excluded from the active
snapshot; and once every record with a given id is inactive, this stays
true after every later cycle, so a fired alert is excluded from all
subsequent snapshots of active alerts. -/
theorem C3_fired_alert_terminal (env : Env) (store : List Alert)
    (envs : ℕ → Env) (i : String) :
    (∀ b ∈ (runCycle env store).1,
        b ∈ store ∨ (b.is_active = false ∧ b.triggered_at = some env.now)) ∧
    (∀ b ∈ (runCycle env store).1, b.is_active = true → b ∈ store) ∧
    (∀ b : Alert, b.is_active = false → b ∉ listActive (runCycle env store).1) ∧
    ((∀ b ∈ store, b.id = i → b.is_active = false) →
      ∀ n, ∀ b ∈ listActive (runLoop envs store n), b.id ≠ i) := by
  refine ⟨fun b hb => runCycle_mem hb, fun b hb hact => ?_,
    fun b hin hmem => ?_, fun h n => ?_⟩
  · rcases runCycle_mem hb with h | h
    · exact h
    · rw [hact] at h; exact absurd h.1 (by simp)
  · have hact := (List.mem_filter.mp hmem).2
    simp [hin] at hact
  · have key : ∀ m, ∀ b ∈ runLoop envs store m, b.id = i →
        b.is_active = false := by
      intro m
      induction m with
      | zero => exact h
      | succ k ihk =>
        intro b hb hbi
        rcases runCycle_mem hb with hmem2 | hmem2
        · exact ihk b hmem2 hbi
        · exact hmem2.1
    intro b hb hbi
    have hact := (List.mem_filter.mp hb).2
    have hfalse := key n b (List.mem_filter.mp hb).1 hbi
    rw [hfalse] at hact
    exact absurd hact (by simp)

/-- Witness for C3: a store whose only record with id "a0" is inactive
keeps id "a0" out of the active snapshot after three cycles. -/
theorem C3_fired_alert_terminal_witness :
    (∀ b ∈ [{ a0 with is_active := false, triggered_at := some 3 }],
        b.id = "a0" → b.is_active = false) ∧
    (∀ b ∈ listActive
        (runLoop (fun _ => raiseEnv)
          [{ a0 with is_active := false, triggered_at := some 3 }] 3),
      b.id ≠ "a0") :=
  ⟨by decide,
   (C3_fired_alert_terminal raiseEnv
      [{ a0 with is_active := false, triggered_at := some 3 }]
      (fun _ => raiseEnv) "a0").2.2.2 (by decide) 3⟩

/-- C6 (counterexample): an alert whose quote fetch yields an empty
history — e.g. an unknown symbol — is skipped with no state change, but
the engine does NOT log it: the trace carries no log event, refuting the
claim that every fetch failure (including an empty history result) is
logged. -/
theorem C6_counterexample :
    processAlert emptyHistEnv [a0] a0 =
      ([a0], [Event.fetchAttempt "XU100.IS"]) ∧
    (∀ i, Event.logError i ∉ (processAlert emptyHistEnv [a0] a0).2) := by
  have h : processAlert emptyHistEnv [a0] a0 =
      ([a0], [Event.fetchAttempt "XU100.IS"]) := by decide
  refine ⟨h, ?_⟩
  intro i hi
  rw [h] at hi
  simp at hi

/-- C6 (amended): a quote fetch that raises is logged and skipped; an
empty history result is skipped silently (no log line); in both cases the
alert is skipped with exactly one fetch attempt, no notification, no
commit and no state change, so it stays active and is in the next cycle's
snapshot. -/
theorem C6_fetch_failure_skips (env : Env) (store : List Alert) (a : Alert) :
    (env.fetch a.symbol = none →
      processAlert env store a =
        (store, [Event.fetchAttempt a.symbol, Event.logError a.id])) ∧
    (env.fetch a.symbol = some [] →
      processAlert env store a = (store, [Event.fetchAttempt a.symbol])) ∧
    ((env.fetch a.symbol = none ∨ env.fetch a.symbol = some []) →
      (processAlert env store a).1 = store ∧
      (a ∈ listActive store → a ∈ listActive (processAlert env store a).1)) := by
  refine ⟨fun h => processAlert_fetch_none h,
    fun h => processAlert_fetch_empty h, fun h => ?_⟩
  have hs : (processAlert env store a).1 = store := by
    rcases h with h | h
    · rw [processAlert_fetch_none h]
    · rw [processAlert_fetch_empty h]
  exact ⟨hs, fun hmem => by rw [hs]; exact hmem⟩

/-- Witness for C6 (amended): the raising provider makes the concrete
alert's processing a logged skip that leaves the one-alert store
untouched. -/
theorem C6_fetch_failure_skips_witness :
    raiseEnv.fetch a0.symbol = none ∧
    processAlert raiseEnv [a0] a0 =
      ([a0], [Event.fetchAttempt a0.symbol, Event.logError a0.id]) :=
  ⟨rfl, (C6_fetch_failure_skips raiseEnv [a0] a0).1 rfl⟩

/-- C8: every cycle ends in the fixed 30-unit sleep (the trace is nonempty
and its last step is the sleep); a failing snapshot read is absorbed at
cycle level — logged as a cycle error, store untouched — followed by the
sleep; and the loop always continues with a next cycle (it is defined at
every cycle count, with no terminating case). -/
theorem C8_cycle_error_absorbed (env : Env) (store : List Alert)
    (envs : ℕ → Env) (n : ℕ) :
    (runCycle env store).2 ≠ [] ∧
    ((runCycle env store).2).getLast? = some (Event.sleep 30) ∧
    (env.botConfigured = true → env.snapshotOk = false →
      runCycle env store = (store, [Event.cycleError, Event.sleep 30])) ∧
    runLoop envs store (n + 1) =
      (runCycle (envs n) (runLoop envs store n)).1 := by
  refine ⟨?_, ?_, fun hb hs => ?_, rfl⟩
  · unfold runCycle
    split
    · simp
    · split
      · simp
      · simp
  · unfold runCycle
    split
    · rfl
    · split
      · rfl
      · exact getLast?_append_singleton
          (Event.snapshotRead :: (processAll env store (listActive store)).2)
          (Event.sleep 30)
  · simp [runCycle, hb, hs]

/-- Witness for C8: with the bot configured and a failing snapshot read,
the concrete cycle is exactly a logged cycle error plus the sleep. -/
theorem C8_cycle_error_absorbed_witness :
    ({ raiseEnv with snapshotOk := false } : Env).botConfigured = true ∧
    ({ raiseEnv with snapshotOk := false } : Env).snapshotOk = false ∧
    runCycle { raiseEnv with snapshotOk := false } [a0] =
      ([a0], [Event.cycleError, Event.sleep 30]) :=
  ⟨rfl, rfl,
   (C8_cycle_error_absorbed { raiseEnv with snapshotOk := false } [a0]
      (fun _ => raiseEnv) 0).2.2.1 rfl rfl⟩

/-- C9: with the notification channel unconfigured, a cycle is an idle
no-op: the store is untouched and the trace is just the sleep — no
snapshot read, no fetch, no evaluation, no notification, no commit. -/
theorem C9_idle_cycle (env : Env) (store : List Alert)
    (h : env.botConfigured = false) :
    runCycle env store = (store, [Event.sleep 30]) ∧
    (runCycle env store).1 = store ∧
    (∀ e ∈ (runCycle env store).2, e = Event.sleep 30) := by
  have hc : runCycle env store = (store, [Event.sleep 30]) := by
    simp [runCycle, h]
  refine ⟨hc, by rw [hc], ?_⟩
  rw [hc]
  intro e he
  simpa using he

/-- Witness for C9: the concrete bot-less environment leaves the one-alert
store untouched and only sleeps. -/
theorem C9_idle_cycle_witness :
    idleEnv.botConfigured = false ∧
    runCycle idleEnv [a0] = ([a0], [Event.sleep 30]) :=
  ⟨rfl, (C9_idle_cycle idleEnv [a0] rfl).1⟩

/-- C1: for every alert and every price sample, the trigger decision
matches the kind's reference condition exactly, with equality counting as
triggering: `price_above` triggers iff `currentPrice ≥ value`,
`price_below` iff `currentPrice ≤ value`, `percent_up` iff
`changePercent ≥ value`, and `percent_down` iff
`changePercent ≤ -value`. -/
theorem C1_trigger_matches_reference (a : Alert) (s : PriceSample) :
    (a.alert_type = "price_above" →
      (evaluate a s = true ↔ s.currentPrice ≥ a.value)) ∧
    (a.alert_type = "price_below" →
      (evaluate a s = true ↔ s.currentPrice ≤ a.value)) ∧
    (a.alert_type = "percent_up" →
      (evaluate a s = true ↔ s.changePercent ≥ a.value)) ∧
    (a.alert_type = "percent_down" →
      (evaluate a s = true ↔ s.changePercent ≤ -a.value)) := by
  refine ⟨fun h => ?_, fun h => ?_, fun h => ?_, fun h => ?_⟩ <;>
    simp [evaluate, triggerDecision, h]

/-- Witness for C1: the spec's own example, a `price_above` alert with
threshold 100 against a sample at price 101 with previous close 95,
triggers. -/
theorem C1_trigger_matches_reference_witness :
    evaluate
      { id := "a1", symbol := "THYAO.IS", alert_type := "price_above",
        value := 100, chat_id := "c1", is_active := true, created_at := 0,
        triggered_at := none }
      { symbol := "THYAO.IS", currentPrice := 101, previousClose := some 95 }
      = true := by
  have h :=
    (C1_trigger_matches_reference
      { id := "a1", symbol := "THYAO.IS", alert_type := "price_above",
        value := 100, chat_id := "c1", is_active := true, created_at := 0,
        triggered_at := none }
      { symbol := "THYAO.IS", currentPrice := 101,
        previousClose := some 95 }).1 rfl
  exact h.mpr (by norm_num)

/-- C2: for a triggered alert whose notification delivery fails, the state
commit is not performed: processing the alert leaves the store exactly
unchanged, so the alert — still active, with `triggered_at` unset — is in
the next cycle's snapshot of active alerts, and a following cycle with bot
and snapshot available fetches it again (at-least-once notification
semantics). -/
theorem C2_delivery_failure_keeps_active (env env2 : Env)
    (store : List Alert) (a : Alert)
    (hfail : env.notifyOk a.chat_id = false)
    (huniq : ∀ c ∈ store, c.id = a.id → c = a)
    (hmem : a ∈ listActive store) :
    (∀ s, (processAlert env s a).1 = s) ∧
    a ∈ listActive (runCycle env store).1 ∧
    (env2.botConfigured = true → env2.snapshotOk = true →
      Event.fetchAttempt a.symbol ∈
        (runCycle env2 (runCycle env store).1).2) := by
  have hstore : a ∈ store := (List.mem_filter.mp hmem).1
  have hact : a.is_active = true := by
    simpa using (List.mem_filter.mp hmem).2
  have hnc : ∀ s, (processAlert env s a).1 = s :=
    fun s => processAlert_notify_fail hfail s
  have hnext : a ∈ listActive (runCycle env store).1 := by
    have key : a ∈ (runCycle env store).1 := by
      unfold runCycle
      split
      · exact hstore
      · split
        · exact hstore
        · dsimp only
          exact (processAll_preserves_unique hnc (listActive store) store
            hstore huniq (fun c hc => huniq c (List.mem_filter.mp hc).1)).1
    exact List.mem_filter.mpr ⟨key, by simpa using hact⟩
  refine ⟨hnc, hnext, fun hb hs => ?_⟩
  have hb2 : ¬ (env2.botConfigured = false) := by simp [hb]
  have hs2 : ¬ (env2.snapshotOk = false) := by simp [hs]
  unfold runCycle
  rw [if_neg hb2, if_neg hs2]
  dsimp only
  refine List.mem_cons_of_mem _ (List.mem_append.mpr (Or.inl ?_))
  exact fetchAttempt_mem_processAll _ _ a hnext

/-- Witness for C2: with every delivery failing, the concrete triggered
alert survives the cycle in the active snapshot. -/
theorem C2_delivery_failure_keeps_active_witness :
    notifyFailEnv.notifyOk a0.chat_id = false ∧
    a0 ∈ listActive (runCycle notifyFailEnv [a0]).1 :=
  ⟨rfl,
   (C2_delivery_failure_keeps_active notifyFailEnv raiseEnv [a0] a0 rfl
      (by decide) (by decide)).2.1⟩

/-- C4: in every cycle trace, a commit step for an alert id is preceded by
a successful notify step for the same id within that same cycle. -/
theorem C4_notify_precedes_commit (env : Env) (store : List Alert)
    (l₁ l₂ : List Event) (i : String)
    (h : (runCycle env store).2 = l₁ ++ Event.commit i :: l₂) :
    Event.notifySuccess i ∈ l₁ := by
  have hchk := commitsAfterNotify_runCycle env store
  rw [h] at hchk
  rcases checker_split i l₁ l₂ [] hchk with hin | hin
  · simp at hin
  · exact hin

/-- Witness for C4: the healthy environment fires the concrete alert, and
the commit in its cycle trace is preceded by the successful notify. -/
theorem C4_notify_precedes_commit_witness :
    (runCycle triggerEnv [a0]).2 =
      [Event.snapshotRead, Event.fetchAttempt "XU100.IS",
       Event.evaluated "a0" true, Event.notifyAttempt "a0",
       Event.notifySuccess "a0"] ++ Event.commit "a0" :: [Event.sleep 30] ∧
    Event.notifySuccess "a0" ∈
      [Event.snapshotRead, Event.fetchAttempt "XU100.IS",
       Event.evaluated "a0" true, Event.notifyAttempt "a0",
       Event.notifySuccess "a0"] :=
  ⟨by decide,
   C4_notify_precedes_commit triggerEnv [a0] _ [Event.sleep 30] "a0"
     (by decide)⟩

/-- C5: a failure while processing one alert never aborts the remaining
alerts of the snapshot: every alert of the snapshot gets its quote fetch
attempted whatever the environment does to the others, and when the fetch
for the first of two alerts raises, the cycle processes the second exactly
as it would alone — same resulting store, same trace — so it may still
trigger in the same cycle. -/
theorem C5_fault_isolation (env : Env) (store snap : List Alert)
    (a b c : Alert) (hc : c ∈ snap) (hfail : env.fetch a.symbol = none) :
    Event.fetchAttempt c.symbol ∈ (processAll env store snap).2 ∧
    processAll env store [a, b] =
      ((processAlert env store b).1,
       [Event.fetchAttempt a.symbol, Event.logError a.id] ++
         (processAlert env store b).2) := by
  refine ⟨fetchAttempt_mem_processAll snap store c hc, ?_⟩
  simp only [processAll]
  rw [processAlert_fetch_none hfail]
  simp

/-- Witness for C5: with the provider raising only for GARAN.IS, the
two-alert snapshot still processes the XU100.IS alert exactly as it would
alone. -/
theorem C5_fault_isolation_witness :
    mixedEnv.fetch aA.symbol = none ∧
    processAll mixedEnv [aA, a0] [aA, a0] =
      ((processAlert mixedEnv [aA, a0] a0).1,
       [Event.fetchAttempt aA.symbol, Event.logError aA.id] ++
         (processAlert mixedEnv [aA, a0] a0).2) :=
  ⟨by decide,
   (C5_fault_isolation mixedEnv [aA, a0] [aA, a0] aA a0 a0 (by decide)
      (by decide)).2⟩

/-- C7: the change percent is derived exactly as specified — the previous
close is absent iff the history has fewer than two rows, the change is 0
then, and otherwise it is (current - previous) / previous * 100; the
sample view of a history agrees with the loop's computation; and for a
sample with the previous close absent, a percent_up alert with threshold 0
triggers while one with threshold 1 does not. -/
theorem C7_change_percent_derivation (hist : List ℚ) (sym : String)
    (p : ℚ) :
    (previousCloseOf hist = none ↔ hist.length < 2) ∧
    (previousCloseOf hist = none → changePercentOf hist = 0) ∧
    (previousCloseOf hist = some p →
      changePercentOf hist = (currentPriceOf hist - p) / p * 100) ∧
    (sampleOfHist sym hist).changePercent = changePercentOf hist ∧
    (∀ s : PriceSample, s.previousClose = none →
      s.changePercent = 0 ∧
      evaluate { a0 with alert_type := "percent_up", value := 0 } s = true ∧
      evaluate { a0 with alert_type := "percent_up", value := 1 } s =
        false) := by
  refine ⟨?_, fun h => ?_, fun h => ?_, ?_, fun s hs => ?_⟩
  · by_cases h : 1 < hist.length <;> simp [previousCloseOf, h] <;> omega
  · simp [changePercentOf, h]
  · simp [changePercentOf, h]
  · cases h : previousCloseOf hist <;>
      simp [sampleOfHist, PriceSample.changePercent, changePercentOf, h]
  · have hchg : s.changePercent = 0 := by
      simp [PriceSample.changePercent, hs]
    refine ⟨hchg, ?_, ?_⟩ <;> simp [evaluate, triggerDecision, hchg, a0]

/-- Witness for C7: the two-row history 95, 101 yields the spec formula,
and the no-previous-close sample triggers the threshold-0 percent_up
alert. -/
theorem C7_change_percent_derivation_witness :
    previousCloseOf [(95 : ℚ), 101] = some 95 ∧
    changePercentOf [(95 : ℚ), 101] =
      (currentPriceOf [(95 : ℚ), 101] - 95) / 95 * 100 ∧
    evaluate { a0 with alert_type := "percent_up", value := 0 }
      { symbol := "KCHOL.IS", currentPrice := 10, previousClose := none } =
      true :=
  ⟨by decide,
   (C7_change_percent_derivation [(95 : ℚ), 101] "KCHOL.IS" 95).2.2.1
     (by decide),
   ((C7_change_percent_derivation [(95 : ℚ), 101] "KCHOL.IS" 95).2.2.2.2
      { symbol := "KCHOL.IS", currentPrice := 10, previousClose := none }
      rfl).2.1⟩

/-- C10: alert creation accepts any string as alert_type (the created
record carries it verbatim, starts active and is appended to the store),
and an alert whose alert_type is none of the four known kinds never
triggers on any price input, its processing never changes the store, and
it remains in the active snapshot after every number of cycles. -/
theorem C10_unknown_kind_inert (input : AlertCreate) (freshId : String)
    (now : ℕ) (store store2 : List Alert) (envs : ℕ → Env) (env : Env)
    (a : Alert)
    (hta : a.alert_type ∉ ["price_above", "price_below", "percent_up",
      "percent_down"])
    (hact : a.is_active = true) :
    ((create_alert input freshId now store).1.alert_type =
        input.alert_type ∧
     (create_alert input freshId now store).1.is_active = true ∧
     (create_alert input freshId now store).2 =
       store ++ [(create_alert input freshId now store).1]) ∧
    (∀ cur chg, triggerDecision a cur chg = false) ∧
    (∀ s, (processAlert env s a).1 = s) ∧
    (a ∈ store2 → (∀ c ∈ store2, c.id = a.id → c = a) →
      ∀ n, a ∈ listActive (runLoop envs store2 n)) := by
  have htd : ∀ cur chg, triggerDecision a cur chg = false :=
    fun cur chg => triggerDecision_unknown hta cur chg
  have hnc : ∀ (e : Env) (s : List Alert), (processAlert e s a).1 = s :=
    fun e s => processAlert_no_trigger htd e s
  refine ⟨⟨rfl, rfl, rfl⟩, htd, hnc env, fun hmem huniq n => ?_⟩
  have h := unknown_type_stays hnc envs store2 hmem huniq n
  exact List.mem_filter.mpr ⟨h.1, by simpa using hact⟩

/-- Witness for C10: the concrete alert with kind "bogus" is still in the
active snapshot after two healthy cycles. -/
theorem C10_unknown_kind_inert_witness :
    aBogus.alert_type ∉ (["price_above", "price_below", "percent_up",
      "percent_down"] : List String) ∧
    aBogus.is_active = true ∧
    aBogus ∈ listActive (runLoop (fun _ => triggerEnv) [aBogus] 2) :=
  ⟨by decide, rfl,
   (C10_unknown_kind_inert ⟨"XU100.IS", "bogus", 1, "c0"⟩ "b0" 0 []
      [aBogus] (fun _ => triggerEnv) triggerEnv aBogus (by decide)
      rfl).2.2.2 (by decide) (by decide) 2⟩

end BistAlarm
